import Mathlib

/-!
# Verification of the companyatlas backend orchestration core

Shallow embedding of `src/python_companyatlas/backends/` (identifier
validation in `europe/france/base.py`, availability evaluation in
`base.py`, orchestration in `helpers.py`) together with theorems settling
the specification claims.

Python strings are modelled as lists of Unicode code points (`List Nat`)
in the identifier layer, where character-level edits matter, and as Lean
`String`s in the registry/orchestration layer.  Python `dict`s are
modelled as ordered association lists (`List (String × PyVal)`), which
mirrors insertion-ordered Python dictionaries with distinct keys.
-/

set_option maxRecDepth 4000

namespace CompanyAtlas

/-- Code points matched by the regex class `\s` (ASCII subset): space and
the control whitespace characters, as used by `re.sub(r'[\s-]', '', s)`. -/
def isPySpace (c : Nat) : Bool :=
  c == 32 || c == 9 || c == 10 || c == 11 || c == 12 || c == 13

/-- A character removed by `re.sub(r'[\s-]', '', s)`: whitespace or hyphen. -/
def isSpaceOrHyphen (c : Nat) : Bool :=
  isPySpace c || c == 45

/-- ASCII decimal digit, the regex class `\d` (ASCII subset). -/
def isDigitCp (c : Nat) : Bool :=
  48 ≤ c && c ≤ 57

/-- Python `str.upper()` restricted to ASCII: maps `a`..`z` to `A`..`Z`. -/
def pyUpperCp (c : Nat) : Nat :=
  if 97 ≤ c && c ≤ 122 then c - 32 else c

/-- `re.sub(r'[\s-]', '', s)`: remove whitespace and hyphens. -/
def stripSpacesHyphens (l : List Nat) : List Nat :=
  l.filter (fun c => !(isSpaceOrHyphen c))

/-- `str(x).upper()` on a code-point list (ASCII case folding). -/
def pyUpperStr (l : List Nat) : List Nat :=
  l.map pyUpperCp

/-- Convert a Lean string literal to its code-point list, for stating
facts about concrete Python string inputs. -/
def pyStr (s : String) : List Nat :=
  s.data.map Char.toNat

/-- One term of the Luhn sum in `FrenchBaseBackend._luhn_check`: digit
character `ch` at 0-based position `i` of the reversed string contributes
`int(ch)` at even positions, and the doubled-and-reduced value at odd
positions. -/
def luhnTerm (i ch : Nat) : Nat :=
  let n := ch - 48
  if i % 2 == 1 then
    let m := 2 * n
    if m > 9 then m - 9 else m
  else n

/-- The accumulating loop of `_luhn_check`: sum `luhnTerm` over the list of
character code points, with `i` the position of the head. -/
def luhnSumFrom : List Nat → Nat → Nat
  | [], _ => 0
  | ch :: t, i => luhnTerm i ch + luhnSumFrom t (i + 1)

/-- `FrenchBaseBackend._luhn_check(number)`: requires length 9, then sums
`luhnTerm` over `enumerate(reversed(number))` and tests divisibility
by 10. -/
def luhn_check (number : List Nat) : Bool :=
  if number.length ≠ 9 then false
  else luhnSumFrom number.reverse 0 % 10 == 0

/-- `FrenchBaseBackend.validate_siren(siren)`: false on empty input; strip
spaces and hyphens; require exactly 9 digits (`^\d{9}$`); then the Luhn
check. -/
def validate_siren (siren : List Nat) : Bool :=
  if siren = [] then false
  else
    let siren_clean := stripSpacesHyphens siren
    if !(siren_clean.length == 9 && siren_clean.all isDigitCp) then false
    else luhn_check siren_clean

/-- `FrenchBaseBackend.format_siren(siren)`: empty on empty input; strip
spaces and hyphens; take the first 9 characters when at least 9 remain,
otherwise return the cleaned string unchanged. -/
def format_siren (siren : List Nat) : List Nat :=
  if siren = [] then []
  else
    let siren_clean := stripSpacesHyphens siren
    if 9 ≤ siren_clean.length then siren_clean.take 9 else siren_clean

/-- `s.startswith('W')` on a code-point list (87 is `W`). -/
def startsWithW (l : List Nat) : Bool :=
  l.headD 0 == 87

/-- `FrenchBaseBackend.validate_rna(rna)`: false on empty input; uppercase,
strip spaces and hyphens; require `W` followed by exactly 8 digits
(`^W\d{8}$`). -/
def validate_rna (rna : List Nat) : Bool :=
  if rna = [] then false
  else
    let rna_clean := stripSpacesHyphens (pyUpperStr rna)
    startsWithW rna_clean &&
      (rna_clean.drop 1).length == 8 && (rna_clean.drop 1).all isDigitCp

/-- `FrenchBaseBackend.format_rna(rna)`: empty on empty input; uppercase and
strip spaces and hyphens; if the result starts with `W`, truncate to 9
characters when at least 9 remain; otherwise keep only digits and prefix `W` when
exactly 8 remain, else return the cleaned string. -/
def format_rna (rna : List Nat) : List Nat :=
  if rna = [] then []
  else
    let rna_clean := stripSpacesHyphens (pyUpperStr rna)
    if startsWithW rna_clean then
      if 9 ≤ rna_clean.length then rna_clean.take 9 else rna_clean
    else
      let digits := rna_clean.filter isDigitCp
      if digits.length == 8 then 87 :: digits else rna_clean

/-- `FrenchBaseBackend.detect_identifier_type(identifier)`: uppercase and
strip spaces and hyphens, then try `validate_siren`, then `validate_rna`;
`none` when neither matches (the Python function returns `None`). -/
def detect_identifier_type (identifier : List Nat) : Option String :=
  let identifier_clean := stripSpacesHyphens (pyUpperStr identifier)
  if validate_siren identifier_clean then some "siren"
  else if validate_rna identifier_clean then some "rna"
  else none

/-- The doubling step of the claim's weighted digit sum: double a digit and
subtract 9 when the doubled value exceeds 9. -/
def luhnDouble (d : Nat) : Nat :=
  if 2 * d > 9 then 2 * d - 9 else 2 * d

/-- The claim's weighted digit sum over digit values listed from the
rightmost digit: every second digit counted from the rightmost is doubled
(with 9 subtracted from doubled values exceeding 9). -/
def weightedFromRight : List Nat → Nat
  | [] => 0
  | [d] => d
  | d :: e :: rest => d + luhnDouble e + weightedFromRight rest

/-- Stated from the claim's words, to be compared with `luhn_check`: the
Luhn-style weighted digit sum of a digit string. -/
def specLuhnSum (s : List Nat) : Nat :=
  weightedFromRight ((s.map (fun c => c - 48)).reverse)

theorem luhnSumFrom_add_two (t : List Nat) : ∀ i, luhnSumFrom t (i + 2) = luhnSumFrom t i := by
  induction t with
  | nil => intro i; rfl
  | cons ch t ih =>
      intro i
      have hmod : (i + 2) % 2 = i % 2 := Nat.add_mod_right i 2
      simp only [luhnSumFrom, luhnTerm, hmod]
      rw [ih (i + 1)]

theorem luhnSumFrom_zero_eq (ds : List Nat) :
    luhnSumFrom ds 0 = weightedFromRight (ds.map (fun c => c - 48)) := by
  induction ds using weightedFromRight.induct with
  | case1 => rfl
  | case2 d => simp [luhnSumFrom, luhnTerm, weightedFromRight]
  | case3 d e rest ih =>
      show luhnTerm 0 d + (luhnTerm 1 e + luhnSumFrom rest 2) = _
      rw [luhnSumFrom_add_two rest 0, ih]
      simp only [List.map_cons, weightedFromRight]
      simp only [luhnTerm, luhnDouble]
      norm_num
      omega

theorem digit_not_space_hyphen {c : Nat} (h : isDigitCp c = true) :
    isSpaceOrHyphen c = false := by
  simp only [isDigitCp, Bool.and_eq_true, decide_eq_true_eq] at h
  simp only [isSpaceOrHyphen, isPySpace, Bool.or_eq_false_iff, beq_eq_false_iff_ne, ne_eq]
  omega

theorem stripSpacesHyphens_digits {s : List Nat} (h : ∀ c ∈ s, isDigitCp c = true) :
    stripSpacesHyphens s = s := by
  unfold stripSpacesHyphens
  refine List.filter_eq_self.mpr ?_
  intro c hc
  simp [digit_not_space_hyphen (h c hc)]

theorem validate_siren_digits (s : List Nat) (h9 : s.length = 9)
    (hd : ∀ c ∈ s, isDigitCp c = true) :
    validate_siren s = true ↔ specLuhnSum s % 10 = 0 := by
  have hne : s ≠ [] := by intro h; rw [h] at h9; simp at h9
  have hclean : stripSpacesHyphens s = s := stripSpacesHyphens_digits hd
  have hall : s.all isDigitCp = true := List.all_eq_true.mpr hd
  unfold validate_siren
  simp only [hne, if_false, hclean, h9, hall]
  norm_num
  unfold luhn_check
  simp only [h9, ne_eq, not_true_eq_false, if_false]
  rw [luhnSumFrom_zero_eq]
  unfold specLuhnSum
  rw [List.map_reverse]
  simp

theorem pyUpperCp_idem (c : Nat) : pyUpperCp (pyUpperCp c) = pyUpperCp c := by
  unfold pyUpperCp
  split_ifs with h1 h2
  · simp_all; omega
  · rfl
  · rfl

theorem pyUpperCp_digit {c : Nat} (h : isDigitCp c = true) : pyUpperCp c = c := by
  simp only [isDigitCp, Bool.and_eq_true, decide_eq_true_eq] at h
  unfold pyUpperCp
  split_ifs with h1
  · simp at h1; omega
  · rfl

theorem mem_stripSpacesHyphens {x : Nat} {l : List Nat}
    (h : x ∈ stripSpacesHyphens l) : isSpaceOrHyphen x = false ∧ x ∈ l := by
  unfold stripSpacesHyphens at h
  have := List.mem_filter.mp h
  exact ⟨by simpa using this.2, this.1⟩

theorem stripSpacesHyphens_of_clean {l : List Nat}
    (h : ∀ x ∈ l, isSpaceOrHyphen x = false) : stripSpacesHyphens l = l := by
  unfold stripSpacesHyphens
  refine List.filter_eq_self.mpr ?_
  intro x hx
  simp [h x hx]

theorem pyUpperStr_digits {l : List Nat} (h : ∀ c ∈ l, isDigitCp c = true) :
    pyUpperStr l = l := by
  unfold pyUpperStr
  induction l with
  | nil => rfl
  | cons c t ih =>
      simp only [List.map_cons, List.cons.injEq]
      exact ⟨pyUpperCp_digit (h c (by simp)), ih (fun x hx => h x (by simp [hx]))⟩

/-- C3: for every 9-digit string `s`, `validate_siren s` is true iff the
Luhn-style weighted digit sum of `s` (doubling every second digit counted
from the rightmost digit and subtracting 9 from doubled values exceeding 9)
is divisible by 10; `validate_siren "732829320"` is true, and changing any
single digit of `"732829320"` makes `validate_siren` false. -/
theorem C3_validate_siren_luhn :
    (∀ s : List Nat, s.length = 9 → (∀ c ∈ s, isDigitCp c = true) →
      (validate_siren s = true ↔ specLuhnSum s % 10 = 0)) ∧
    validate_siren (pyStr "732829320") = true ∧
    (∀ i : Fin 9, ∀ d : Fin 10,
      48 + d.val ≠ (pyStr "732829320").getD i.val 0 →
      validate_siren ((pyStr "732829320").set i.val (48 + d.val)) = false) := by
  refine ⟨validate_siren_digits, by decide, by decide⟩

/-- Witness for C3: the equivalence applied at the concrete SIREN
`"732829320"`, with both hypotheses discharged by evaluation. -/
theorem C3_validate_siren_luhn_witness :
    validate_siren (pyStr "732829320") = true ↔ specLuhnSum (pyStr "732829320") % 10 = 0 :=
  C3_validate_siren_luhn.1 (pyStr "732829320") (by decide) (by decide)

theorem pyUpperStr_eq_self {l : List Nat} (h : ∀ c ∈ l, pyUpperCp c = c) :
    pyUpperStr l = l := by
  unfold pyUpperStr
  induction l with
  | nil => rfl
  | cons c t ih =>
      simp only [List.map_cons, List.cons.injEq]
      exact ⟨h c (by simp), ih (fun x hx => h x (by simp [hx]))⟩

theorem mem_upperClean {x : Nat} {l : List Nat}
    (h : x ∈ stripSpacesHyphens (pyUpperStr l)) :
    pyUpperCp x = x ∧ isSpaceOrHyphen x = false := by
  obtain ⟨hns, hmem⟩ := mem_stripSpacesHyphens h
  obtain ⟨y, _, rfl⟩ := List.mem_map.mp hmem
  exact ⟨pyUpperCp_idem y, hns⟩

/-- A code-point list left unchanged by `str.upper()` followed by removal
of spaces and hyphens. -/
def CleanFixed (m : List Nat) : Prop :=
  stripSpacesHyphens (pyUpperStr m) = m

theorem cleanFixed_of_mem {m : List Nat}
    (h : ∀ x ∈ m, pyUpperCp x = x ∧ isSpaceOrHyphen x = false) : CleanFixed m := by
  unfold CleanFixed
  rw [pyUpperStr_eq_self (fun c hc => (h c hc).1)]
  exact stripSpacesHyphens_of_clean (fun c hc => (h c hc).2)

theorem cleanFixed_upperClean (l : List Nat) :
    CleanFixed (stripSpacesHyphens (pyUpperStr l)) :=
  cleanFixed_of_mem (fun _ hx => mem_upperClean hx)

theorem cleanFixed_take (m : List Nat) (n : Nat) (h : CleanFixed m) :
    CleanFixed (m.take n) := by
  have hm : ∀ x ∈ m, pyUpperCp x = x ∧ isSpaceOrHyphen x = false := by
    intro x hx
    exact mem_upperClean (h ▸ hx)
  exact cleanFixed_of_mem (fun x hx => hm x (List.mem_of_mem_take hx))

theorem stripSpacesHyphens_idem (l : List Nat) :
    stripSpacesHyphens (stripSpacesHyphens l) = stripSpacesHyphens l :=
  stripSpacesHyphens_of_clean (fun _ hx => (mem_stripSpacesHyphens hx).1)

/-- C8: identifier normalization is idempotent: applying `format_siren`
twice gives the same result as applying it once, and likewise for
`format_rna`. -/
theorem C8_format_idempotent :
    (∀ s : List Nat, format_siren (format_siren s) = format_siren s) ∧
    (∀ s : List Nat, format_rna (format_rna s) = format_rna s) := by
  constructor
  · intro s
    by_cases hs : s = []
    · subst hs; rfl
    · rw [show format_siren s =
          (if 9 ≤ (stripSpacesHyphens s).length then (stripSpacesHyphens s).take 9
           else stripSpacesHyphens s) by
        unfold format_siren; rw [if_neg hs]]
      set c := stripSpacesHyphens s with hc
      have hcc : stripSpacesHyphens c = c := stripSpacesHyphens_idem s
      by_cases hlen : 9 ≤ c.length
      · rw [if_pos hlen]
        have h9 : (c.take 9).length = 9 := by rw [List.length_take]; omega
        have hne : c.take 9 ≠ [] := by
          intro h
          rw [h] at h9
          simp at h9
        have hstrip : stripSpacesHyphens (c.take 9) = c.take 9 :=
          stripSpacesHyphens_of_clean (fun x hx => by
            have hxs : x ∈ stripSpacesHyphens s := by
              rw [← hc]; exact List.mem_of_mem_take hx
            exact (mem_stripSpacesHyphens hxs).1)
        unfold format_siren
        rw [if_neg hne, hstrip]
        have h9 : (c.take 9).length = 9 := by rw [List.length_take]; omega
        rw [if_pos (by omega : 9 ≤ (c.take 9).length)]
        exact List.take_of_length_le (by omega)
      · rw [if_neg hlen]
        by_cases hce : c = []
        · rw [hce]; rfl
        · unfold format_siren
          rw [if_neg hce, hcc, if_neg hlen]
  · intro s
    by_cases hs : s = []
    · subst hs; rfl
    · rw [show format_rna s =
          (if startsWithW (stripSpacesHyphens (pyUpperStr s)) then
            if 9 ≤ (stripSpacesHyphens (pyUpperStr s)).length then
              (stripSpacesHyphens (pyUpperStr s)).take 9
            else stripSpacesHyphens (pyUpperStr s)
           else
            if ((stripSpacesHyphens (pyUpperStr s)).filter isDigitCp).length == 8 then
              87 :: (stripSpacesHyphens (pyUpperStr s)).filter isDigitCp
            else stripSpacesHyphens (pyUpperStr s)) by
        unfold format_rna; rw [if_neg hs]]
      set c := stripSpacesHyphens (pyUpperStr s) with hc
      have hcfix : CleanFixed c := cleanFixed_upperClean s
      by_cases hW : startsWithW c
      · rw [if_pos hW]
        by_cases hlen : 9 ≤ c.length
        · rw [if_pos hlen]
          have h9 : (c.take 9).length = 9 := by rw [List.length_take]; omega
          have hne : c.take 9 ≠ [] := by
            intro h; rw [h] at h9; simp at h9
          have hfix : CleanFixed (c.take 9) := cleanFixed_take c 9 hcfix
          have hW9 : startsWithW (c.take 9) = true := by
            unfold startsWithW at hW ⊢
            rcases c with _ | ⟨a, t⟩
            · simp at hW
            · simpa using hW
          unfold format_rna
          rw [if_neg hne, hfix, if_pos hW9, if_pos (by omega : 9 ≤ (c.take 9).length)]
          exact List.take_of_length_le (by omega)
        · rw [if_neg hlen]
          have hne : c ≠ [] := by
            intro h
            rw [h] at hW
            simp [startsWithW] at hW
          unfold format_rna
          rw [if_neg hne, hcfix, if_pos hW, if_neg hlen]
      · rw [if_neg hW]
        by_cases hdig : (c.filter isDigitCp).length == 8
        · rw [if_pos hdig]
          have hdfix : ∀ x ∈ 87 :: c.filter isDigitCp,
              pyUpperCp x = x ∧ isSpaceOrHyphen x = false := by
            intro x hx
            rcases List.mem_cons.mp hx with h87 | hmem
            · subst h87; exact ⟨by decide, by decide⟩
            · have := List.mem_filter.mp hmem
              exact ⟨pyUpperCp_digit this.2, digit_not_space_hyphen this.2⟩
          have hfix : CleanFixed (87 :: c.filter isDigitCp) := cleanFixed_of_mem hdfix
          have hlen9 : (87 :: c.filter isDigitCp).length = 9 := by
            simp only [List.length_cons]
            have h8 : (c.filter isDigitCp).length = 8 := by simpa using hdig
            omega
          unfold format_rna
          rw [if_neg (by simp : (87 :: c.filter isDigitCp) ≠ []), hfix,
            if_pos (by simp [startsWithW] : startsWithW (87 :: c.filter isDigitCp) = true),
            if_pos (by omega : 9 ≤ (87 :: c.filter isDigitCp).length)]
          exact List.take_of_length_le (by omega)
        · rw [if_neg hdig]
          by_cases hce : c = []
          · rw [hce]; rfl
          · unfold format_rna
            rw [if_neg hce, hcfix, if_neg hW, if_neg hdig]

theorem validate_rna_digits {s : List Nat} (hne : s ≠ [])
    (hd : ∀ c ∈ s, isDigitCp c = true) : validate_rna s = false := by
  unfold validate_rna
  rw [if_neg hne]
  rw [pyUpperStr_digits hd, stripSpacesHyphens_digits hd]
  rcases s with _ | ⟨c0, t⟩
  · exact absurd rfl hne
  · have hc0 := hd c0 (by simp)
    simp only [isDigitCp, Bool.and_eq_true, decide_eq_true_eq] at hc0
    simp only [startsWithW, List.headD_cons, Bool.and_eq_false_iff]
    left; left
    simp only [beq_eq_false_iff_ne, ne_eq]
    omega

theorem detect_digits_none {s : List Nat} (hne : s ≠ [])
    (hd : ∀ c ∈ s, isDigitCp c = true) (hsiren : validate_siren s = false) :
    detect_identifier_type s = none := by
  unfold detect_identifier_type
  simp only [pyUpperStr_digits hd, stripSpacesHyphens_digits hd]
  simp [hsiren, validate_rna_digits hne hd]

theorem validate_siren_not_nine {s : List Nat}
    (h : ¬((stripSpacesHyphens s).length = 9 ∧
      ∀ c ∈ stripSpacesHyphens s, isDigitCp c = true)) :
    validate_siren s = false := by
  unfold validate_siren
  by_cases hs : s = []
  · rw [if_pos hs]
  · rw [if_neg hs]
    cases hb : ((stripSpacesHyphens s).length == 9 && (stripSpacesHyphens s).all isDigitCp) with
    | false => simp [hb]
    | true =>
        exfalso
        simp only [Bool.and_eq_true, beq_iff_eq, List.all_eq_true] at hb
        exact h ⟨hb.1, hb.2⟩

/-- C7 counterexample: the 14-digit string `"12345678901234"` is classified
`none` (unknown) by `detect_identifier_type`, not as a SIRET: the code has
no SIRET detection stage at all. -/
theorem C7_counterexample_fourteen_digits :
    detect_identifier_type (pyStr "12345678901234") ≠ some "siret" ∧
    detect_identifier_type (pyStr "12345678901234") = none := by
  refine ⟨?_, by decide⟩
  decide

/-- C7 amended: identifier-kind detection tries the SIREN rule (9 digits plus
checksum) first, then the RNA rule (`W` followed by 8 digits), and reports
unknown (`none`) when neither matches; there is no SIRET stage, so every
9-digit string that fails the SIREN checksum is classified unknown, and
every 14-digit string is classified unknown as well. -/
theorem C7_detect_order_amended :
    (∀ s : List Nat, s.length = 9 → (∀ c ∈ s, isDigitCp c = true) →
      specLuhnSum s % 10 ≠ 0 → detect_identifier_type s = none) ∧
    (∀ s : List Nat, s.length = 14 → (∀ c ∈ s, isDigitCp c = true) →
      detect_identifier_type s = none) := by
  constructor
  · intro s h9 hd hsum
    have hne : s ≠ [] := by intro h; rw [h] at h9; simp at h9
    have hsiren : validate_siren s = false := by
      cases hv : validate_siren s with
      | false => rfl
      | true => exact absurd ((validate_siren_digits s h9 hd).mp hv) hsum
    exact detect_digits_none hne hd hsiren
  · intro s h14 hd
    have hne : s ≠ [] := by intro h; rw [h] at h14; simp at h14
    have hsiren : validate_siren s = false := by
      refine validate_siren_not_nine ?_
      rw [stripSpacesHyphens_digits hd]
      intro hcon
      omega
    exact detect_digits_none hne hd hsiren

/-- Witness for C7's amended theorem: applied to the concrete 9-digit string
`"732829321"` (which fails the Luhn checksum) and the concrete 14-digit
string `"99999999999999"`. -/
theorem C7_detect_order_amended_witness :
    detect_identifier_type (pyStr "732829321") = none ∧
    detect_identifier_type (pyStr "99999999999999") = none :=
  ⟨C7_detect_order_amended.1 (pyStr "732829321") (by decide) (by decide) (by decide),
   C7_detect_order_amended.2 (pyStr "99999999999999") (by decide) (by decide)⟩

/-- C9: the validator and formatter functions are total and never raise:
`validate_siren` and `validate_rna` are false on the empty string and on any
input whose normalization is malformed, identifier-kind detection returns
unknown on the empty string and whenever neither rule accepts, and
`format_siren` returns the best-effort truncation (the first 9 normalized
characters) whenever the normalized length is at least 9. -/
theorem C9_total_failure_semantics :
    validate_siren (pyStr "") = false ∧
    validate_rna (pyStr "") = false ∧
    detect_identifier_type (pyStr "") = none ∧
    (∀ s : List Nat, 9 ≤ (stripSpacesHyphens s).length →
      format_siren s = (stripSpacesHyphens s).take 9) ∧
    (∀ s : List Nat,
      ¬((stripSpacesHyphens s).length = 9 ∧
        ∀ c ∈ stripSpacesHyphens s, isDigitCp c = true) →
      validate_siren s = false) ∧
    (∀ s : List Nat, validate_rna s = true →
      startsWithW (stripSpacesHyphens (pyUpperStr s)) = true ∧
      ((stripSpacesHyphens (pyUpperStr s)).drop 1).length = 8 ∧
      ∀ c ∈ (stripSpacesHyphens (pyUpperStr s)).drop 1, isDigitCp c = true) ∧
    (∀ s : List Nat,
      validate_siren (stripSpacesHyphens (pyUpperStr s)) = false →
      validate_rna (stripSpacesHyphens (pyUpperStr s)) = false →
      detect_identifier_type s = none) := by
  refine ⟨by decide, by decide, by decide, ?_, fun s h => validate_siren_not_nine h, ?_, ?_⟩
  · intro s h
    have hs : s ≠ [] := by
      intro he
      rw [he] at h
      simp [stripSpacesHyphens] at h
    unfold format_siren
    rw [if_neg hs, if_pos h]
  · intro s h
    unfold validate_rna at h
    by_cases hs : s = []
    · rw [if_pos hs] at h; exact absurd h (by simp)
    · rw [if_neg hs] at h
      simp only [Bool.and_eq_true, beq_iff_eq, List.all_eq_true] at h
      exact ⟨h.1.1, h.1.2, h.2⟩
  · intro s h1 h2
    unfold detect_identifier_type
    simp [h1, h2]

/-- Witness for C9: the truncation clause applied at the concrete input
`"1234-5678 9012"`, whose normalization has length at least 9. -/
theorem C9_total_failure_semantics_witness :
    format_siren (pyStr "1234-5678 9012") =
      (stripSpacesHyphens (pyStr "1234-5678 9012")).take 9 :=
  C9_total_failure_semantics.2.2.2.1 (pyStr "1234-5678 9012") (by decide)

/-- Python `s.upper()` on a Lean string (ASCII case folding, which covers
every string occurring in the model). -/
def pyStrUpper (s : String) : String :=
  ⟨s.data.map Char.toUpper⟩

/-- Python `s.lower()` on a Lean string (ASCII case folding). -/
def pyStrLower (s : String) : String :=
  ⟨s.data.map Char.toLower⟩

/-- Python `s.replace(a, b)` for single-character pattern and replacement,
the only form the source uses (`"-"`→`"_"` and `"_"`→`" "`). -/
def pyReplaceChar (s : String) (a b : Char) : String :=
  ⟨s.data.map (fun c => if c = a then b else c)⟩

/-- Does `pat` occur as a prefix of `l`? -/
def startsWithL : List Char → List Char → Bool
  | [], _ => true
  | _ :: _, [] => false
  | a :: pat, b :: l => a == b && startsWithL pat l

/-- Does `pat` occur as a contiguous substring of `l`? -/
def occursInL (pat : List Char) : List Char → Bool
  | [] => startsWithL pat []
  | c :: l => startsWithL pat (c :: l) || occursInL pat l

/-- Lexicographic comparison of code-point lists, Python's `<` on `str`. -/
def lexLt : List Char → List Char → Bool
  | [], [] => false
  | [], _ :: _ => true
  | _ :: _, [] => false
  | a :: as, b :: bs => if a < b then true else if b < a then false else lexLt as bs

/-- Python `x < y` on strings: code-point lexicographic order. -/
def strLt (x y : String) : Bool :=
  lexLt x.data y.data

/-! ## Python values and dictionaries

The orchestration layer of `helpers.py` passes status information around as
string-keyed dictionaries.  `PyVal` models the Python values that occur in
them; a dictionary is an insertion-ordered association list with distinct
keys (`PyDict`). -/

/-- A Python value as it occurs in backend status dictionaries and backend
operation results. -/
inductive PyVal where
  | vNone : PyVal
  | vBool : Bool → PyVal
  | vStr : String → PyVal
  | vInt : Int → PyVal
  | vList : List PyVal → PyVal
  | vDict : List (String × PyVal) → PyVal

/-- An insertion-ordered Python dictionary with string keys. -/
abbrev PyDict := List (String × PyVal)

/-- `d.get(k)` as an `Option`: the first (unique) binding of `k`. -/
def dictGet (d : PyDict) (k : String) : Option PyVal :=
  (d.find? (fun kv => kv.1 == k)).map (fun kv => kv.2)

/-- `d.get(k, default)`. -/
def dictGetD (d : PyDict) (k : String) (v₀ : PyVal) : PyVal :=
  (dictGet d k).getD v₀

/-- `d[k] = v`: overwrite in place when the key exists (Python dicts keep
the original position), append otherwise. -/
def dictSet (d : PyDict) (k : String) (v : PyVal) : PyDict :=
  if (d.find? (fun kv => kv.1 == k)).isSome then
    d.map (fun kv => if kv.1 == k then (kv.1, v) else kv)
  else d ++ [(k, v)]

/-- Python truthiness of a `PyVal` (`if value:`). -/
def pyTruthy : PyVal → Bool
  | .vNone => false
  | .vBool b => b
  | .vStr s => !(s == "")
  | .vInt n => !(n == 0)
  | .vList xs => !xs.isEmpty
  | .vDict d => !d.isEmpty

/-- Python `value == b` with `b` a `bool`: a Python `bool` compares by
value, and numbers compare numerically (`1 == True`); other values are
unequal to a `bool`. -/
def pyEqBool (v : PyVal) (b : Bool) : Bool :=
  match v with
  | .vBool b' => b' == b
  | .vInt n => n == (if b then 1 else 0)
  | _ => false

/-- Read a string value out of a status dictionary: `d.get(k, dflt)`.
All string-typed keys of a status dictionary hold strings, so the
non-string fallback to `dflt` is never exercised. -/
def statusGetStr (d : PyDict) (k : String) (dflt : String) : String :=
  match dictGet d k with
  | some (.vStr v) => v
  | some _ => dflt
  | none => dflt

/-- Python `needle in hay` for strings (an empty needle is contained in
every string). -/
def pyInStr (needle hay : String) : Bool :=
  occursInL needle.data hay.data

/-! ## Backend classes

`BaseBackend` subclasses carry static metadata (name, capability flags,
required configuration keys and packages, request costs, URLs) plus the
operation surface.  The HTTP operations themselves are external
collaborators: they are modelled as opaque functions from the query to
either a result value or a raised exception message.  A constructor that
raises (an `__init__` referencing an undefined attribute) is modelled by
`init_raises`. -/

/-- A backend class of the registry, with the metadata read by
`BaseBackend.get_status` and the operations invoked by
`search_companies`. -/
structure BackendClass where
  name : String
  clsName : String := ""
  display_name : Option String := none
  config_keys : List String := []
  required_packages : List String := []
  /-- Declared capability flags.  Classes that do not declare them have no
  such attribute in the source; no code path under `helpers.py` or
  `base.py` ever reads the class attribute, so absent flags are modelled
  as `false`. -/
  can_fetch_company_data : Bool := false
  can_fetch_documents : Bool := false
  can_fetch_events : Bool := false
  /-- The `request_cost` class attribute (capability name → cost), empty
  for classes that do not declare one. -/
  request_cost : PyDict := []
  country_code : String := "XX"
  continent : Option String := none
  documentation_url : Option String := none
  site_url : Option String := none
  status_url : Option String := none
  /-- When set, constructing the class raises with this message
  (`INSEEBackend.__init__` calls the undefined `_get_config_or_env`). -/
  init_raises : Option String := none
  search_by_name : String → Except String PyVal := fun _ => .ok (.vList [])
  get_documents : String → Except String PyVal := fun _ => .ok (.vList [])
  get_events : String → Except String PyVal := fun _ => .ok (.vList [])

/-- Helper for `dedupKeys`: keep the elements not yet seen, in order. -/
def dedupKeysAux (seen : List String) : List String → List String
  | [] => []
  | k :: t => if k ∈ seen then dedupKeysAux seen t else k :: dedupKeysAux (k :: seen) t

/-- Keys of a Python dict built by comprehension over a list: duplicates
collapse onto their first occurrence, in insertion order. -/
def dedupKeys (l : List String) : List String :=
  dedupKeysAux [] l

theorem mem_dedupKeysAux {a : String} :
    ∀ {l seen : List String}, a ∈ dedupKeysAux seen l ↔ (a ∈ l ∧ ¬ a ∈ seen) := by
  intro l
  induction l with
  | nil => intro seen; simp [dedupKeysAux]
  | cons k t ih =>
      intro seen
      rw [dedupKeysAux]
      by_cases hk : k ∈ seen
      · rw [if_pos hk, ih]
        constructor
        · rintro ⟨ht, hs⟩
          exact ⟨List.mem_cons_of_mem _ ht, hs⟩
        · rintro ⟨hkt, hs⟩
          rcases List.mem_cons.mp hkt with rfl | ht
          · exact absurd hk hs
          · exact ⟨ht, hs⟩
      · rw [if_neg hk]
        simp only [List.mem_cons, ih]
        constructor
        · rintro (rfl | ⟨ht, hs⟩)
          · exact ⟨Or.inl rfl, hk⟩
          · exact ⟨Or.inr ht, fun hmem => hs (Or.inr hmem)⟩
        · rintro ⟨(rfl | ht), hs⟩
          · exact Or.inl rfl
          · by_cases hak : a = k
            · exact Or.inl hak
            · refine Or.inr ⟨ht, ?_⟩
              intro hmem
              rcases hmem with rfl | hmem'
              · exact hak rfl
              · exact hs hmem'

theorem mem_dedupKeys {a : String} {l : List String} : a ∈ dedupKeys l ↔ a ∈ l := by
  unfold dedupKeys
  rw [mem_dedupKeysAux]
  simp

/-- ASCII uppercase/lowercase letter test, Python's `str.isalpha` and the
cased/uncased distinction of `str.title` restricted to ASCII. -/
def isAsciiAlphaChar (c : Char) : Bool :=
  ('A' ≤ c && c ≤ 'Z') || ('a' ≤ c && c ≤ 'z')

/-- The character transformation of Python `str.title()`: uppercase a
letter that starts an alphabetic run, lowercase the rest. -/
def titleMap : Bool → List Char → List Char
  | _, [] => []
  | prevAlpha, c :: t =>
      (if isAsciiAlphaChar c then (if prevAlpha then c.toLower else c.toUpper) else c)
        :: titleMap (isAsciiAlphaChar c) t

/-- Python `s.title()` (ASCII). -/
def pyTitle (s : String) : String :=
  ⟨titleMap false s.data⟩

/-- `BaseBackend.label`: the display name when set, else the name with
underscores replaced by spaces and title-cased, else the class name. -/
def label (B : BackendClass) : String :=
  match B.display_name with
  | some d => d
  | none => if !(B.name == "") then pyTitle (pyReplaceChar B.name '_' ' ') else B.clsName

/-- `BaseBackend.check_package`: try importing the package under its
primary name, then with hyphens replaced by underscores.  Importability is
modelled by membership in the list `inst` of importable module names. -/
def check_package (inst : List String) (package_name : String) : Bool :=
  inst.contains package_name || inst.contains (pyReplaceChar package_name '-' '_')

/-- `BaseBackend.check_required_packages`: a dict from each required
package to its installation status (duplicate names collapse to their
first occurrence, as in a Python dict comprehension). -/
def check_required_packages (B : BackendClass) (inst : List String) : List (String × Bool) :=
  (dedupKeys B.required_packages).map (fun p => (p, check_package inst p))

/-- `BaseBackend.check_config_keys`: a dict from each declared config key
to whether it is present in the raw configuration mapping (`config` lists
the keys present).  No environment variable is consulted. -/
def check_config_keys (B : BackendClass) (config : List String) : List (String × Bool) :=
  (dedupKeys B.config_keys).map (fun k => (k, config.contains k))

/-- The `missing_packages` list computed in `BaseBackend.get_status`. -/
def missing_packages (B : BackendClass) (inst : List String) : List String :=
  ((check_required_packages B inst).filter (fun pb => !pb.2)).map (fun pb => pb.1)

/-- The `missing_config` list computed in `BaseBackend.get_status`: it
iterates `self.config_keys` and keeps the keys whose status is falsy. -/
def missing_config (B : BackendClass) (config : List String) : List String :=
  B.config_keys.filter (fun k => !(config.contains k))

/-- The `status` string computed in `BaseBackend.get_status`. -/
def statusString (B : BackendClass) (config inst : List String) : String :=
  if !(missing_packages B inst).isEmpty then "missing_packages"
  else if !(missing_config B config).isEmpty then "missing_config"
  else "available"

/-- `get_country_flag_emoji`: two regional-indicator code points for a
2-letter alphabetic code, empty string otherwise. -/
def get_country_flag_emoji (country_code : String) : String :=
  if !(country_code.length == 2) then ""
  else
    let up := pyStrUpper country_code
    if !(up.data.all isAsciiAlphaChar) then ""
    else ⟨up.data.map (fun c => Char.ofNat (0x1F1E6 + c.toNat - 65))⟩

/-- `get_country_flag_image_base64` renders a PNG through the external
`flagpy` library and returns the empty string when the library is
unavailable or rendering fails.  The rendered bytes are external I/O
outside the embedding; the function is modelled by its fallback value.
No claim and no orchestration code path reads this key. -/
def get_country_flag_image_base64 (_country_code : String) : String :=
  ""

/-- Lift an optional string to a `PyVal` (`None` or the string). -/
def optStr : Option String → PyVal
  | some s => .vStr s
  | none => .vNone

/-- `BaseBackend.get_status`: the status dictionary, with exactly the keys
the source builds.  Note that the backend's name is stored under
`"backend_name"` and that no `"name"`, `"display_name"`, `"can_fetch_*"`
or `"request_cost"` key is produced. -/
def get_status (B : BackendClass) (config inst : List String) : PyDict :=
  let packages := check_required_packages B inst
  let config_status := check_config_keys B config
  let status := statusString B config inst
  [("status", .vStr status),
   ("is_available", .vBool (status == "available")),
   ("backend_name", .vStr B.name),
   ("backend_display_name", .vStr (label B)),
   ("country_code", .vStr B.country_code),
   ("country_flag", .vStr (get_country_flag_emoji B.country_code)),
   ("country_flag_image", .vStr (get_country_flag_image_base64 B.country_code)),
   ("packages", .vDict (packages.map (fun pb => (pb.1, .vBool pb.2)))),
   ("config", .vDict (config_status.map (fun kb => (kb.1, .vBool kb.2)))),
   ("missing_packages", .vList ((missing_packages B inst).map .vStr)),
   ("missing_config", .vList ((missing_config B config).map .vStr)),
   ("warnings", .vList []),
   ("documentation_url", optStr B.documentation_url),
   ("site_url", optStr B.site_url),
   ("status_url", optStr B.status_url)]

/-! ## Registry enumeration and filtering (`helpers.py`) -/

/-- The optional filters accepted by `get_backends`. -/
structure BackendFilters where
  continent : Option String := none
  country_code : Option String := none
  can_fetch_documents : Option Bool := none
  can_fetch_events : Option Bool := none
  can_fetch_company_data : Option Bool := none
  search : Option String := none

/-- `get_all_backends`: instantiate every registered class in order; a
constructor that raises aborts the enumeration with that exception. -/
def get_all_backends (registry : List BackendClass) : Except String (List BackendClass) :=
  match registry.find? (fun B => B.init_raises.isSome) with
  | some B => .error (B.init_raises.getD "")
  | none => .ok registry

/-- The guard sequence of `get_backends`: true when the status passes every
given filter.  An empty-string filter value is falsy in Python and is
skipped.  (The `continent` value in a status can be `None`; Python would
raise on `.lower()` there, but `search_companies` never passes a continent
filter, so that path is modelled by the string read with default.) -/
def passesFilters (f : BackendFilters) (status : PyDict) : Bool :=
  (match f.continent with
   | some cont =>
       cont == "" || pyStrLower (statusGetStr status "continent" "") == pyStrLower cont
   | none => true) &&
  (match f.country_code with
   | some cc =>
       cc == "" || pyStrUpper (statusGetStr status "country_code" "") == pyStrUpper cc
   | none => true) &&
  (match f.can_fetch_documents with
   | some b => pyEqBool (dictGetD status "can_fetch_documents" .vNone) b
   | none => true) &&
  (match f.can_fetch_events with
   | some b => pyEqBool (dictGetD status "can_fetch_events" .vNone) b
   | none => true) &&
  (match f.can_fetch_company_data with
   | some b => pyEqBool (dictGetD status "can_fetch_company_data" .vNone) b
   | none => true) &&
  (match f.search with
   | some q =>
       q == "" ||
       (pyInStr (pyStrLower q) (pyStrLower (statusGetStr status "name" "")) ||
        pyInStr (pyStrLower q) (pyStrLower (statusGetStr status "display_name" "")))
   | none => true)

/-- `get_backends`: instantiate all backends, take each one's status, add
the `continent` key and overwrite `country_code`, and keep the statuses
passing the filters. -/
def get_backends (registry : List BackendClass) (config inst : List String)
    (f : BackendFilters) : Except String (List PyDict) :=
  match get_all_backends registry with
  | .error e => .error e
  | .ok backends =>
      .ok (((backends.map (fun B =>
        let status := get_status B config inst
        let status := dictSet status "continent" (optStr B.continent)
        dictSet status "country_code" (.vStr B.country_code)))).filter
          (passesFilters f))

/-! ## The orchestrator `search_companies` -/

/-- The `fetch` argument of `search_companies`
(`Literal["data", "documents", "events"]`). -/
inductive Fetch where
  | data : Fetch
  | documents : Fetch
  | events : Fetch
deriving DecidableEq

/-- The string value of the `fetch` literal. -/
def Fetch.str : Fetch → String
  | .data => "data"
  | .documents => "documents"
  | .events => "events"

/-- `get_cost_value` in `search_companies`: the sort key of a status —
`status.get("request_cost", {})`, then the cost for the requested
capability (default `"free"`); `"free"` maps to 0, a number to itself
(a Python `bool` is an `int`), anything else to 999.  Numeric costs are
integers in the source, so the key is modelled as `Int`. -/
def get_cost_value (fetch : Fetch) (status : PyDict) : Int :=
  let request_cost :=
    match dictGetD status "request_cost" (.vDict []) with
    | .vDict rc => rc
    | _ => []
  let cost := (dictGet request_cost fetch.str).getD (.vStr "free")
  match cost with
  | .vStr s => if s == "free" then 0 else 999
  | .vInt n => n
  | .vBool b => if b then 1 else 0
  | _ => 999

/-- Insert a status into a cost-sorted list, after every status of equal
or smaller key (stability). -/
def insertByCost (fetch : Fetch) (s : PyDict) : List PyDict → List PyDict
  | [] => [s]
  | t :: ts =>
      if get_cost_value fetch t ≤ get_cost_value fetch s then
        t :: insertByCost fetch s ts
      else s :: t :: ts

/-- `backend_statuses.sort(key=get_cost_value)`: a stable ascending sort.
Python's Timsort is stable, and a stable sort's output is uniquely
determined by the key order and the input order, so this insertion sort
computes the same list. -/
def sortByCost (fetch : Fetch) (l : List PyDict) : List PyDict :=
  l.foldl (fun acc s => insertByCost fetch s acc) []

/-- `backend_class_map = {cls.name: cls for cls in backend_classes if
cls.name}` followed by `.get(n)`: among classes with a truthy name, the
last binding of a duplicated name wins. -/
def backend_class_map_get (registry : List BackendClass) (n : String) :
    Option BackendClass :=
  ((registry.filter (fun c => !(c.name == ""))).reverse).find? (fun c => c.name == n)

/-- Dispatch of the loop body of `search_companies` on `fetch`. -/
def run_backend_op (B : BackendClass) (fetch : Fetch) (query : String) :
    Except String PyVal :=
  match fetch with
  | .data => B.search_by_name query
  | .documents => B.get_documents query
  | .events => B.get_events query

/-- The value returned by `search_companies` (an outcome dictionary, or an
uncaught exception), together with a ghost trace of the backends whose
operation was actually invoked, in invocation order. -/
structure SearchResult where
  outcome : Except String PyDict
  invoked : List String

/-- The exhaustion outcome of `search_companies`. -/
def exhaustedOutcome (errors : List String) : PyDict :=
  [("results", .vList []), ("total", .vInt 0),
   ("error", .vStr "No results found from any backend"),
   ("errors", .vList
     ((if !errors.isEmpty then errors else ["All backends failed to return results"]).map .vStr))]

/-- The success outcome of `search_companies`: a non-list result is wrapped
into a one-element list with total 1. -/
def successOutcome (results : PyVal) (backend_name : String) : PyDict :=
  [("results", match results with | .vList _ => results | v => .vList [v]),
   ("total", .vInt (match results with | .vList xs => (xs.length : Int) | _ => 1)),
   ("backend_used", .vStr backend_name)]

/-- The candidate loop of `search_companies`.  Per status: skip when the
(absent) `"name"` key or `"is_available"` is falsy; skip when the class
map has no entry; construct the class (a raising constructor propagates,
since construction happens outside the `try` block); invoke the operation
for `fetch` inside the failure boundary — an exception is recorded as
`"<name>: <message>"` and iteration continues, a truthy result returns
the success outcome, a falsy result continues.  A truthy non-string name
would miss in the string-keyed class map and is skipped. -/
def try_candidates (registry : List BackendClass) (fetch : Fetch) (query : String) :
    List PyDict → List String → List String → SearchResult
  | [], errors, invoked => ⟨.ok (exhaustedOutcome errors), invoked⟩
  | status :: rest, errors, invoked =>
      let backend_name := dictGetD status "name" .vNone
      if !(pyTruthy backend_name) || !(pyTruthy (dictGetD status "is_available" .vNone)) then
        try_candidates registry fetch query rest errors invoked
      else
        match backend_name with
        | .vStr n =>
            match backend_class_map_get registry n with
            | none => try_candidates registry fetch query rest errors invoked
            | some cls =>
                match cls.init_raises with
                | some e => ⟨.error e, invoked⟩
                | none =>
                    match run_backend_op cls fetch query with
                    | .error e =>
                        try_candidates registry fetch query rest
                          (errors ++ [n ++ ": " ++ e]) (invoked ++ [n])
                    | .ok results =>
                        if pyTruthy results then
                          ⟨.ok (successOutcome results n), invoked ++ [n]⟩
                        else try_candidates registry fetch query rest errors (invoked ++ [n])
        | _ => try_candidates registry fetch query rest errors invoked

/-- Ascending insertion into a sorted list of strings. -/
def insertString (x : String) : List String → List String
  | [] => [x]
  | y :: t => if strLt x y then x :: y :: t else y :: insertString x t

/-- Python `sorted` on a set of strings: the distinct elements in
ascending order. -/
def sortStrings (l : List String) : List String :=
  l.foldr insertString []

/-- The error outcome for an unknown `backend` argument. -/
def backendNotFoundOutcome (b : String) (available_backends : String) : PyDict :=
  [("results", .vList []), ("total", .vInt 0),
   ("error", .vStr ("Backend '" ++ b ++ "' not found")),
   ("errors", .vList [.vStr ("Backend '" ++ b ++ "' is not available. Available backends: "
     ++ available_backends)])]

/-- The outcome when no status survives filtering. -/
def noWorkingOutcome : PyDict :=
  [("results", .vList []), ("total", .vInt 0),
   ("error", .vStr "No working backends found"),
   ("errors", .vList [.vStr "No backends are properly configured"])]

/-- The outcome for an empty query. -/
def emptyQueryOutcome : PyDict :=
  [("results", .vList []), ("total", .vInt 0),
   ("error", .vStr "Empty or invalid query"),
   ("errors", .vList [.vStr "Query string is required"])]

/-- Sort the surviving statuses and run the candidate loop (`helpers.py`
lines 308–369). -/
def searchFrom (registry : List BackendClass) (fetch : Fetch) (query : String)
    (statuses : List PyDict) : SearchResult :=
  if statuses.isEmpty then ⟨.ok noWorkingOutcome, []⟩
  else try_candidates registry fetch query (sortByCost fetch statuses) [] []

/-- The `filters` dictionary built by `search_companies`: the country
filter when `country_code` is truthy, and the capability filter matching
`fetch`. -/
def searchFilters (country_code : Option String) (fetch : Fetch) : BackendFilters :=
  { country_code :=
      match country_code with
      | some cc => if cc == "" then none else some cc
      | none => none
    can_fetch_company_data := if fetch = Fetch.data then some true else none
    can_fetch_documents := if fetch = Fetch.documents then some true else none
    can_fetch_events := if fetch = Fetch.events then some true else none }

/-- The `backend` argument handling of `search_companies`: filter the
statuses by exact (case-insensitive) name; when nothing matches, re-enumerate
all backends and fail fast with the joined, sorted, deduplicated list of
their `status.get("name", "unknown")` values; otherwise continue with the
filtered statuses. -/
def searchWithBackendArg (registry : List BackendClass) (config inst : List String)
    (query : String) (backend : Option String) (fetch : Fetch)
    (backend_statuses : List PyDict) : SearchResult :=
  match backend with
  | some b =>
      if (backend_statuses.filter
          (fun s => pyStrLower (statusGetStr s "name" "") == pyStrLower b)).isEmpty then
        match get_backends registry config inst {} with
        | .error e => ⟨.error e, []⟩
        | .ok all_statuses =>
            ⟨.ok (backendNotFoundOutcome b (String.intercalate ", "
              (sortStrings (dedupKeys (all_statuses.map
                (fun s => statusGetStr s "name" "unknown")))))), []⟩
      else
        searchFrom registry fetch query (backend_statuses.filter
          (fun s => pyStrLower (statusGetStr s "name" "") == pyStrLower b))
  | none => searchFrom registry fetch query backend_statuses

/-- `search_companies(query, config, country_code=..., backend=...,
fetch=...)`: reject an empty query; enumerate and filter backend statuses
by capability and country; apply the exact-name backend filter, failing
fast when it matches nothing; sort by cost and try candidates in order.
`config` lists the keys present in the configuration mapping and `inst`
the importable packages; `limit` and `**kwargs` only parameterize the
external HTTP calls and are absorbed into the operation functions. -/
def search_companies (registry : List BackendClass) (config inst : List String)
    (query : String) (country_code : Option String) (backend : Option String)
    (fetch : Fetch) : SearchResult :=
  if query == "" then ⟨.ok emptyQueryOutcome, []⟩
  else
    match get_backends registry config inst (searchFilters country_code fetch) with
    | .error e => ⟨.error e, []⟩
    | .ok backend_statuses =>
        searchWithBackendArg registry config inst query backend fetch backend_statuses

/-! ## The registered backends (`_ALL_BACKEND_CLASSES`)

The nine registered classes, with their metadata transcribed from the
source.  Their HTTP operations are external collaborators; `net` supplies
the outcome of each backend's operation for each capability.  Classes that
declare no `can_fetch_*` or `request_cost` attribute are left at the
structure defaults (no code path reads the class attribute). -/

/-- The external network behavior: backend name → capability → query →
result or raised exception. -/
abbrev NetBehavior := String → Fetch → String → Except String PyVal

/-- `BODACCBackend` (`europe/france/bodacc.py`). -/
def BODACCBackendC (net : NetBehavior) : BackendClass :=
  { name := "bodacc", clsName := "BODACCBackend", display_name := some "BODACC"
    config_keys := ["api_key", "base_url"], required_packages := ["requests"]
    can_fetch_documents := true, can_fetch_events := true
    can_fetch_company_data := false
    country_code := "FR"
    documentation_url := some "https://www.data.gouv.fr/fr/datasets/bodacc/"
    site_url := some "https://www.bodacc.fr"
    search_by_name := net "bodacc" Fetch.data
    get_documents := net "bodacc" Fetch.documents
    get_events := net "bodacc" Fetch.events }

/-- `INSEEBackend` (`europe/france/insee.py`).  Its `__init__` calls
`self._get_config_or_env("api_key")`, a method defined nowhere in the
repository, so construction raises `AttributeError` for every
configuration. -/
def INSEEBackendC (net : NetBehavior) : BackendClass :=
  { name := "insee", clsName := "INSEEBackend", display_name := some "INSEE SIRENE"
    config_keys := ["api_key"], required_packages := ["requests"]
    can_fetch_company_data := true
    request_cost := [("data", .vStr "free"), ("documents", .vStr "free"),
      ("events", .vStr "free")]
    country_code := "FR"
    documentation_url := some
      "https://api.insee.fr/catalogue/site/themes/wso2/subthemes/insee/pages/list-apis.jag"
    site_url := some "https://www.insee.fr"
    status_url := some "https://api.insee.fr/status"
    init_raises := some
      "AttributeError: 'INSEEBackend' object has no attribute '_get_config_or_env'"
    search_by_name := net "insee" Fetch.data
    get_documents := net "insee" Fetch.documents
    get_events := net "insee" Fetch.events }

/-- `EntDataGouvBackend` (`europe/france/entdatagouv.py`). -/
def EntDataGouvBackendC (net : NetBehavior) : BackendClass :=
  { name := "entdatagouv", clsName := "EntDataGouvBackend"
    display_name := some "data.gouv.fr"
    config_keys := ["dataset_id"], required_packages := ["requests"]
    country_code := "FR"
    documentation_url := some "https://www.data.gouv.fr/api"
    site_url := some "https://www.data.gouv.fr"
    search_by_name := net "entdatagouv" Fetch.data
    get_documents := net "entdatagouv" Fetch.documents
    get_events := net "entdatagouv" Fetch.events }

/-- `PappersBackend` (`europe/france/pappers.py`). -/
def PappersBackendC (net : NetBehavior) : BackendClass :=
  { name := "pappers", clsName := "PappersBackend", display_name := some "Pappers"
    config_keys := ["api_key"], required_packages := ["requests"]
    country_code := "FR"
    documentation_url := some "https://www.pappers.fr/api/documentation"
    site_url := some "https://www.pappers.fr"
    status_url := some "https://www.pappers.fr/api/status"
    search_by_name := net "pappers" Fetch.data
    get_documents := net "pappers" Fetch.documents
    get_events := net "pappers" Fetch.events }

/-- `InfogreffeBackend` (`europe/france/infogreffe.py`). -/
def InfogreffeBackendC (net : NetBehavior) : BackendClass :=
  { name := "infogreffe", clsName := "InfogreffeBackend"
    display_name := some "Infogreffe"
    config_keys := ["api_key", "username", "password"]
    required_packages := ["requests"]
    country_code := "FR"
    documentation_url := some "https://www.infogreffe.fr"
    site_url := some "https://www.infogreffe.fr"
    search_by_name := net "infogreffe" Fetch.data
    get_documents := net "infogreffe" Fetch.documents
    get_events := net "infogreffe" Fetch.events }

/-- `OpendatasoftBackend` (`europe/france/opendatasoft.py`). -/
def OpendatasoftBackendC (net : NetBehavior) : BackendClass :=
  { name := "opendatasoft", clsName := "OpendatasoftBackend"
    display_name := some "Opendatasoft"
    config_keys := ["api_key", "dataset_id"], required_packages := ["requests"]
    country_code := "FR"
    documentation_url := some "https://help.opendatasoft.com/apis/ods-search-api"
    site_url := some "https://data.opendatasoft.com"
    search_by_name := net "opendatasoft" Fetch.data
    get_documents := net "opendatasoft" Fetch.documents
    get_events := net "opendatasoft" Fetch.events }

/-- `INPIBackend` (`europe/france/inpi.py`). -/
def INPIBackendC (net : NetBehavior) : BackendClass :=
  { name := "inpi", clsName := "INPIBackend", display_name := some "INPI"
    config_keys := ["api_key", "username", "password"]
    required_packages := ["requests"]
    country_code := "FR"
    documentation_url := some "https://www.inpi.fr/fr/services-et-outils/api"
    site_url := some "https://www.inpi.fr"
    search_by_name := net "inpi" Fetch.data
    get_documents := net "inpi" Fetch.documents
    get_events := net "inpi" Fetch.events }

/-- `SocieteComBackend` (`europe/france/societecom.py`). -/
def SocieteComBackendC (net : NetBehavior) : BackendClass :=
  { name := "societecom", clsName := "SocieteComBackend"
    display_name := some "Societe.com"
    config_keys := ["api_key", "api_secret"], required_packages := ["requests"]
    country_code := "FR"
    documentation_url := some "https://www.societe.com/cgi-bin/api"
    site_url := some "https://www.societe.com"
    search_by_name := net "societecom" Fetch.data
    get_documents := net "societecom" Fetch.documents
    get_events := net "societecom" Fetch.events }

/-- `PharowBackend` (`europe/france/pharow.py`). -/
def PharowBackendC (net : NetBehavior) : BackendClass :=
  { name := "pharow", clsName := "PharowBackend", display_name := some "Pharow"
    config_keys := ["api_key", "api_secret"], required_packages := ["requests"]
    country_code := "FR"
    documentation_url := some "https://www.pharow.com/api"
    site_url := some "https://www.pharow.com"
    search_by_name := net "pharow" Fetch.data
    get_documents := net "pharow" Fetch.documents
    get_events := net "pharow" Fetch.events }

/-- `_ALL_BACKEND_CLASSES` in `helpers.py`, in registration order. -/
def ALL_BACKEND_CLASSES (net : NetBehavior) : List BackendClass :=
  [BODACCBackendC net, INSEEBackendC net, EntDataGouvBackendC net,
   PappersBackendC net, InfogreffeBackendC net, OpendatasoftBackendC net,
   INPIBackendC net, SocieteComBackendC net, PharowBackendC net]

/-! ## Claim C5: availability evaluation -/

/-- Stated from the claim's words (and §6 of the spec), to be compared
with the code: the environment variable named by the convention
`<PREFIX>_<BACKEND_NAME_UPPER>_<KEY_UPPER>`. -/
def envVarName (pfx backendName key : String) : String :=
  pfx ++ "_" ++ pyStrUpper backendName ++ "_" ++ pyStrUpper key

/-- Stated from the claim's words: a required config key is satisfied by
the explicit configuration mapping or, failing that, by the environment
variable named by the convention (`env` lists the environment variables
that are set). -/
def specConfigKeySatisfied (config env : List String) (pfx backendName key : String) : Bool :=
  config.contains key || env.contains (envVarName pfx backendName key)

/-- Stated from the claim's words: availability as the claim describes it —
no missing package (probed under primary and hyphen-to-underscore
normalized names) and every config key satisfied by explicit config or
environment. -/
def specIsAvailable (B : BackendClass) (config env inst : List String) (pfx : String) : Bool :=
  B.required_packages.all (check_package inst) &&
  B.config_keys.all (specConfigKeySatisfied config env pfx B.name)

/-- A minimal backend requiring one config key, for exercising the
availability evaluation. -/
def xBackend : BackendClass :=
  { name := "xback", clsName := "XBackend", config_keys := ["api_key"] }

/-- C5 counterexample: with `api_key` absent from the explicit
configuration but the convention-named environment variable set, the
claim's availability predicate is true while the code's `is_available` is
false — `check_config_keys` consults only the explicit configuration
mapping and never the environment. -/
theorem C5_counterexample_env_ignored :
    dictGet (get_status xBackend [] []) "is_available" = some (.vBool false) ∧
    specIsAvailable xBackend [] ["COMPANYATLAS_XBACK_API_KEY"] [] "COMPANYATLAS" = true := by
  exact ⟨by rfl, by rfl⟩

theorem dictGet_get_status_is_available (B : BackendClass) (config inst : List String) :
    dictGet (get_status B config inst) "is_available" =
      some (.vBool (statusString B config inst == "available")) := rfl

theorem missing_packages_eq_nil_iff (B : BackendClass) (inst : List String) :
    missing_packages B inst = [] ↔
      B.required_packages.filter (fun p => !(check_package inst p)) = [] := by
  unfold missing_packages check_required_packages
  rw [List.map_eq_nil_iff, List.filter_eq_nil_iff, List.filter_eq_nil_iff]
  constructor
  · intro h p hp
    exact h (p, check_package inst p) (List.mem_map.mpr ⟨p, mem_dedupKeys.mpr hp, rfl⟩)
  · intro h pb hpb
    obtain ⟨q, hq, rfl⟩ := List.mem_map.mp hpb
    exact h q (mem_dedupKeys.mp hq)

/-- C5 amended: `is_available` is true iff the set of missing packages and
the set of missing config keys are both empty, where each required package
is probed under its primary name and then under its hyphen-to-underscore
normalized name, and each required config key must be present in the
explicit configuration mapping (the environment is not consulted). -/
theorem C5_availability_amended (B : BackendClass) (config inst : List String) :
    dictGet (get_status B config inst) "is_available" = some (.vBool true) ↔
    B.required_packages.filter (fun p =>
        !(inst.contains p || inst.contains (pyReplaceChar p '-' '_'))) = [] ∧
    B.config_keys.filter (fun k => !(config.contains k)) = [] := by
  rw [dictGet_get_status_is_available]
  simp only [Option.some.injEq, PyVal.vBool.injEq, beq_iff_eq]
  have hmp := missing_packages_eq_nil_iff B inst
  unfold check_package at hmp
  have hmc : missing_config B config = B.config_keys.filter (fun k => !(config.contains k)) := rfl
  unfold statusString
  constructor
  · intro h
    split_ifs at h with h1 h2
    · exact absurd h (by decide)
    · exact absurd h (by decide)
    · have hmp1 : (missing_packages B inst).isEmpty = true := by
        revert h1
        cases (missing_packages B inst).isEmpty <;> simp
      have hmc1 : (missing_config B config).isEmpty = true := by
        revert h2
        cases (missing_config B config).isEmpty <;> simp
      exact ⟨hmp.mp (List.isEmpty_iff.mp hmp1), hmc ▸ List.isEmpty_iff.mp hmc1⟩
  · rintro ⟨h1, h2⟩
    rw [if_neg (by simp [List.isEmpty_iff, hmp.mpr h1]),
      if_neg (by simp [List.isEmpty_iff, hmc ▸ h2])]

/-! ## Test fixtures for the orchestration claims -/

/-- A fully available backend whose data search returns one result: the
fallback winner the claims describe. -/
def alphaBackend : BackendClass :=
  { name := "alpha", clsName := "AlphaBackend", can_fetch_company_data := true
    search_by_name := fun _ => .ok (.vList [.vDict [("name", .vStr "ACME Alpha")]]) }

/-- A second available backend with no results. -/
def betaBackend : BackendClass :=
  { name := "beta", clsName := "BetaBackend", can_fetch_company_data := true }

/-- Backend `A` of the C4 scenario: declared cost `"free"` for data. -/
def costA : BackendClass :=
  { name := "aaa", clsName := "ABackend", can_fetch_company_data := true
    request_cost := [("data", .vStr "free")] }

/-- Backend `B` of the C4 scenario: declared numeric cost 5 for data. -/
def costB : BackendClass :=
  { name := "bbb", clsName := "BBackend", can_fetch_company_data := true
    request_cost := [("data", .vInt 5)] }

/-- Backend `C` of the C4 scenario: declared cost `"free"` for data. -/
def costC : BackendClass :=
  { name := "ccc", clsName := "CBackend", can_fetch_company_data := true
    request_cost := [("data", .vStr "free")] }

/-- Stated from the claim's words: the sort key over a backend class's
declared `request_cost` — `"free"` strictly before every numeric cost,
numeric costs by value. -/
def specDeclaredCostKey (fetch : Fetch) (B : BackendClass) : Int × Int :=
  match (dictGet B.request_cost fetch.str).getD (.vStr "free") with
  | .vStr s => if s == "free" then (0, 0) else (2, 0)
  | .vInt n => (1, n)
  | _ => (2, 0)

/-- Non-strict lexicographic order on the spec cost keys. -/
def specCostLe (a b : Int × Int) : Bool :=
  a.1 < b.1 || (a.1 == b.1 && a.2 ≤ b.2)

/-- Stable insertion for the claim's ordering. -/
def specInsertClass (fetch : Fetch) (B : BackendClass) :
    List BackendClass → List BackendClass
  | [] => [B]
  | C :: t =>
      if specCostLe (specDeclaredCostKey fetch C) (specDeclaredCostKey fetch B) then
        C :: specInsertClass fetch B t
      else B :: C :: t

/-- Stated from the claim's words: the candidate order the claim expects —
registered backends stably sorted by declared request cost, free first. -/
def specSortClasses (fetch : Fetch) (l : List BackendClass) : List BackendClass :=
  l.foldl (fun acc B => specInsertClass fetch B acc) []

/-! ## Claims C1, C2, C4, C6 -/

/-- C1 (code-bug evidence): a registry holding a single available backend
whose `search_by_name` returns one result.  The claim requires
`search_companies` to return that backend's output with `backend_used set`;
instead the capability filter in `get_backends` drops every status (the
status dictionaries carry no `can_fetch_*` keys, although the `get_backends`
docstring promises them), no backend operation is ever invoked, and the
outcome is the "No working backends found" error. -/
theorem C1_winner_never_invoked :
    search_companies [alphaBackend] [] [] "acme" none none Fetch.data =
      ⟨.ok noWorkingOutcome, []⟩ ∧
    alphaBackend.search_by_name "acme" =
      .ok (.vList [.vDict [("name", .vStr "ACME Alpha")]]) :=
  ⟨rfl, rfl⟩

/-- C2 (code-bug evidence): for every network behavior, configuration and
installed-package set, any search with a non-empty query raises:
`get_all_backends` constructs `INSEEBackend`, whose `__init__` calls the
undefined `_get_config_or_env`, and backend construction happens outside
every failure boundary, so the `AttributeError` escapes to the caller
instead of a structured outcome. -/
theorem C2_construction_failure_escapes :
    ∀ (net : NetBehavior) (config inst : List String) (fetch : Fetch),
      search_companies (ALL_BACKEND_CLASSES net) config inst "acme" none none fetch =
        ⟨.error "AttributeError: 'INSEEBackend' object has no attribute '_get_config_or_env'",
         []⟩ :=
  fun _ _ _ _ => rfl

/-- C4 (code-bug evidence): for A(free), B(5), C(free) registered as
[B, A, C], the claim expects trial order [A, C, B] (first conjunct: the
declared-cost ordering indeed gives [aaa, ccc, bbb]).  But `get_status`
never copies `request_cost` into the status dictionary, so inside
`search_companies` every candidate's `get_cost_value` is 0 and the sort
leaves registration order [bbb, aaa, ccc] (second conjunct) — and no
candidate is ever invoked at all (third conjunct). -/
theorem C4_cost_order_not_applied :
    (specSortClasses Fetch.data [costB, costA, costC]).map (fun B => B.name) =
      ["aaa", "ccc", "bbb"] ∧
    (get_backends [costB, costA, costC] [] [] {}).map
      (fun sts => (sortByCost Fetch.data sts).map
        (fun s => statusGetStr s "backend_name" "")) = .ok ["bbb", "aaa", "ccc"] ∧
    (search_companies [costB, costA, costC] [] [] "acme" none none Fetch.data).invoked =
      [] :=
  ⟨rfl, rfl, rfl⟩

/-- C6 (code-bug evidence): requesting an unknown backend name.  On the
real registry the search raises INSEE's constructor `AttributeError`
before the backend-name check is even reached (first conjunct).  On a
registry without the constructor bug, the error outcome is produced with
zero backends invoked, but its message lists `unknown` — not the known
backend names — because each status carries `backend_name` while the
message builder reads `status.get("name", "unknown")` (second
conjunct). -/
theorem C6_unknown_backend_lists_unknown :
    (∀ (net : NetBehavior) (config inst : List String),
      search_companies (ALL_BACKEND_CLASSES net) config inst "acme" none
          (some "doesnotexist") Fetch.data =
        ⟨.error "AttributeError: 'INSEEBackend' object has no attribute '_get_config_or_env'",
         []⟩) ∧
    search_companies [alphaBackend, betaBackend] [] [] "acme" none
        (some "doesnotexist") Fetch.data =
      ⟨.ok (backendNotFoundOutcome "doesnotexist" "unknown"), []⟩ :=
  ⟨fun _ _ _ => rfl, rfl⟩

/-! ## Claim C10: the `total == len(results)` invariant -/

/-- The outcome invariant: `results` is a list and `total` is its
length. -/
def outcomeInvariant (d : PyDict) : Prop :=
  ∃ rs : List PyVal, dictGet d "results" = some (.vList rs) ∧
    dictGet d "total" = some (.vInt rs.length)

theorem invariant_emptyQuery : outcomeInvariant emptyQueryOutcome := ⟨[], rfl, rfl⟩

theorem invariant_noWorking : outcomeInvariant noWorkingOutcome := ⟨[], rfl, rfl⟩

theorem invariant_notFound (b av : String) :
    outcomeInvariant (backendNotFoundOutcome b av) := ⟨[], rfl, rfl⟩

theorem invariant_exhausted (errors : List String) :
    outcomeInvariant (exhaustedOutcome errors) := ⟨[], rfl, rfl⟩

theorem invariant_success (v : PyVal) (n : String) :
    outcomeInvariant (successOutcome v n) := by
  cases v with
  | vNone => exact ⟨[.vNone], rfl, rfl⟩
  | vBool b => exact ⟨[.vBool b], rfl, rfl⟩
  | vStr s => exact ⟨[.vStr s], rfl, rfl⟩
  | vInt i => exact ⟨[.vInt i], rfl, rfl⟩
  | vList xs => exact ⟨xs, rfl, rfl⟩
  | vDict kvs => exact ⟨[.vDict kvs], rfl, rfl⟩

theorem try_candidates_invariant (registry : List BackendClass) (fetch : Fetch)
    (query : String) :
    ∀ (sts : List PyDict) (errors invoked : List String) (d : PyDict),
      (try_candidates registry fetch query sts errors invoked).outcome = .ok d →
      outcomeInvariant d := by
  intro sts
  induction sts with
  | nil =>
      intro errors invoked d h
      rw [try_candidates] at h
      injection h with h'
      exact h' ▸ invariant_exhausted errors
  | cons status rest ih =>
      intro errors invoked d h
      rw [try_candidates] at h
      split at h
      · exact ih _ _ _ h
      · split at h
        · split at h
          · exact ih _ _ _ h
          · split at h
            · exact absurd h (by simp)
            · split at h
              · exact ih _ _ _ h
              · split at h
                · injection h with h'
                  exact h' ▸ invariant_success _ _
                · exact ih _ _ _ h
        all_goals exact ih _ _ _ h

theorem searchFrom_invariant (registry : List BackendClass) (fetch : Fetch)
    (query : String) (statuses : List PyDict) (d : PyDict)
    (h : (searchFrom registry fetch query statuses).outcome = .ok d) :
    outcomeInvariant d := by
  rw [searchFrom] at h
  split at h
  · injection h with h'
    exact h' ▸ invariant_noWorking
  · exact try_candidates_invariant registry fetch query _ _ _ _ h

/-- C10: every outcome dictionary `search_companies` returns satisfies
`total == len(results)`: on every error path (empty query, unknown backend
name, no working backends, exhaustion) `results` is the empty list and
`total` is 0, and on the success path `total` is the number of returned
results, a non-list backend result being wrapped into a one-element list
with total 1. -/
theorem searchWithBackendArg_invariant (registry : List BackendClass)
    (config inst : List String) (query : String) (backend : Option String)
    (fetch : Fetch) (backend_statuses : List PyDict) (d : PyDict)
    (h : (searchWithBackendArg registry config inst query backend fetch
      backend_statuses).outcome = .ok d) :
    outcomeInvariant d := by
  rw [searchWithBackendArg.eq_def] at h
  split at h
  · split at h
    · split at h
      · exact absurd h (by simp)
      · injection h with h'
        exact h' ▸ invariant_notFound _ _
    · exact searchFrom_invariant _ _ _ _ _ h
  · exact searchFrom_invariant _ _ _ _ _ h

/-- C10: every outcome dictionary `search_companies` returns satisfies
`total == len(results)`: on every error path (empty query, unknown backend
name, no working backends, exhaustion) `results` is the empty list and
`total` is 0, and on the success path `total` is the number of returned
results, a non-list backend result being wrapped into a one-element list
with total 1. -/
theorem C10_total_equals_results_length :
    ∀ (registry : List BackendClass) (config inst : List String) (query : String)
      (country_code backend : Option String) (fetch : Fetch) (d : PyDict),
      (search_companies registry config inst query country_code backend fetch).outcome =
        .ok d →
      ∃ rs : List PyVal, dictGet d "results" = some (.vList rs) ∧
        dictGet d "total" = some (.vInt rs.length) := by
  intro registry config inst query country_code backend fetch d h
  rw [search_companies] at h
  split at h
  · injection h with h'
    exact h' ▸ invariant_emptyQuery
  · split at h
    · exact absurd h (by simp)
    · exact searchWithBackendArg_invariant _ _ _ _ _ _ _ _ h

/-- Witness for C10: the theorem applied to the concrete empty-query call,
whose outcome is the empty-query error dictionary. -/
theorem C10_total_equals_results_length_witness :
    ∃ rs : List PyVal, dictGet emptyQueryOutcome "results" = some (.vList rs) ∧
      dictGet emptyQueryOutcome "total" = some (.vInt rs.length) :=
  C10_total_equals_results_length [] [] [] "" none none Fetch.data emptyQueryOutcome rfl

end CompanyAtlas
